import Mathlib

/-!
Shallow embedding of `src/src-tauri/src/lib.rs` (NoMoreLaunchers core).
OS observations (registry keys, registry values, filesystem paths) are
modelled as a read-only environment record; each Tauri command becomes a
pure Lean function of that environment.
-/

namespace NoMoreLaunchers

/-- Mirrors Rust struct `GameInfo` (lib.rs lines 19-27). -/
structure GameInfo where
  id : String
  name : String
  executable : String
  install_path : String
  launcher_id : String
  icon : Option String
deriving DecidableEq

/-- Mirrors Rust struct `LauncherInfo` (lib.rs lines 9-17). -/
structure LauncherInfo where
  id : String
  name : String
  icon : String
  detected : Bool
  games : List GameInfo
  install_path : Option String
deriving DecidableEq

/-- Mirrors Rust struct `ImportResult` (lib.rs lines 29-33).
`success` is a `u32` in the source; it is modelled as a `Nat` kept below
`2 ^ 32` by reducing modulo `2 ^ 32` at each increment, the release-build
wrapping semantics of the `u32` counter. -/
structure ImportResult where
  success : Nat
  failed : List String
deriving DecidableEq

/-- The OS state observed by the program: whether `open_subkey` succeeds on a
HKLM registry key path, what `get_value` returns for a (key, value-name) pair,
and whether `Path::new(p).exists()` holds. All read-only. -/
structure Env where
  regKey : String → Bool
  regValue : String → String → Option String
  path : String → Bool

/-- Mirrors `check_registry_key` (lib.rs lines 164-167): `open_subkey(..).is_ok()`. -/
def check_registry_key (env : Env) (key_path : String) : Bool :=
  env.regKey key_path

/-- Mirrors `check_path` (lib.rs lines 169-171): `Path::new(path).exists()`. -/
def check_path (env : Env) (path : String) : Bool :=
  env.path path

/-- Mirrors `get_epic_games` (lib.rs lines 194-213): fixed two-game catalog. -/
def get_epic_games : List GameInfo :=
  [ { id := "fortnite", name := "Fortnite",
      executable := "FortniteClient-Win64-Shipping.exe",
      install_path := "C:\\Program Files\\Epic Games\\Fortnite",
      launcher_id := "epic", icon := none },
    { id := "gta5-epic", name := "Grand Theft Auto V",
      executable := "GTA5.exe",
      install_path := "C:\\Program Files\\Epic Games\\GTAV",
      launcher_id := "epic", icon := none } ]

/-- Mirrors `get_ubisoft_games` (lib.rs lines 215-226): fixed one-game catalog. -/
def get_ubisoft_games : List GameInfo :=
  [ { id := "ac-valhalla", name := "Assassin\u0027s Creed Valhalla",
      executable := "ACValhalla.exe",
      install_path := "C:\\Program Files\\Ubisoft\\Assassins Creed Valhalla",
      launcher_id := "ubisoft", icon := none } ]

/-- Mirrors `get_ea_games` (lib.rs lines 228-239): fixed one-game catalog. -/
def get_ea_games : List GameInfo :=
  [ { id := "apex", name := "Apex Legends",
      executable := "r5apex.exe",
      install_path := "C:\\Program Files\\EA Games\\Apex",
      launcher_id := "ea", icon := none } ]

/-- Mirrors `get_gog_games` (lib.rs lines 241-252): fixed one-game catalog. -/
def get_gog_games : List GameInfo :=
  [ { id := "witcher3-gog", name := "The Witcher 3: Wild Hunt",
      executable := "witcher3.exe",
      install_path := "C:\\GOG Games\\The Witcher 3 Wild Hunt",
      launcher_id := "gog", icon := none } ]

/-- Mirrors `get_battlenet_games` (lib.rs lines 254-265): fixed one-game catalog. -/
def get_battlenet_games : List GameInfo :=
  [ { id := "diablo4", name := "Diablo IV",
      executable := "Diablo IV.exe",
      install_path := "C:\\Program Files (x86)\\Diablo IV",
      launcher_id := "battlenet", icon := none } ]

/-- Rust `str::contains("Error")` on the game name (lib.rs line 147):
substring containment, modelled as infix on the character list. -/
def nameContainsError (s : String) : Bool :=
  decide ("Error".toList <:+: s.toList)

/-- The `for game in games` loop of `add_games_to_steam` (lib.rs lines 144-153),
with the `success` counter and the `failed` vector as accumulators. The
`success += 1` on the `u32` counter wraps modulo `2 ^ 32` (release-build
semantics); the per-item `sleep` is a pure delay with no observable effect
and is dropped. -/
def add_games_loop : List GameInfo → Nat → List String → ImportResult
  | [], success, failed => { success := success, failed := failed }
  | game :: rest, success, failed =>
    if nameContainsError game.name then
      add_games_loop rest success (failed ++ [game.name])
    else
      add_games_loop rest ((success + 1) % 2 ^ 32) failed

/-- Mirrors command `add_games_to_steam` (lib.rs lines 137-157). -/
def add_games_to_steam (games : List GameInfo) : Except String ImportResult :=
  Except.ok (add_games_loop games 0 [])

/-- The `launchers` vector built by `detect_launchers` (lib.rs lines 44-114):
five entries pushed in fixed order epic, ubisoft, ea, gog, battlenet, each
with its registry-key-OR-two-paths detection predicate, conditional catalog,
and hardcoded canonical install path. -/
def detect_launchers_list (env : Env) : List LauncherInfo :=
  let epic_detected :=
    check_registry_key env "SOFTWARE\\WOW6432Node\\Epic Games\\EpicGamesLauncher"
      || check_path env "C:\\Program Files (x86)\\Epic Games\\Launcher"
      || check_path env "C:\\Program Files\\Epic Games\\Launcher"
  let ubisoft_detected :=
    check_registry_key env "SOFTWARE\\WOW6432Node\\Ubisoft\\Launcher"
      || check_path env "C:\\Program Files (x86)\\Ubisoft\\Ubisoft Game Launcher"
      || check_path env "C:\\Program Files\\Ubisoft\\Ubisoft Game Launcher"
  let ea_detected :=
    check_registry_key env "SOFTWARE\\WOW6432Node\\Electronic Arts\\EA Desktop"
      || check_path env "C:\\Program Files\\Electronic Arts\\EA Desktop"
      || check_path env "C:\\Program Files (x86)\\Electronic Arts\\EA Desktop"
  let gog_detected :=
    check_registry_key env "SOFTWARE\\WOW6432Node\\GOG.com\\GalaxyClient"
      || check_path env "C:\\Program Files (x86)\\GOG Galaxy"
      || check_path env "C:\\Program Files\\GOG Galaxy"
  let battlenet_detected :=
    check_registry_key env "SOFTWARE\\WOW6432Node\\Blizzard Entertainment\\Battle.net"
      || check_path env "C:\\Program Files (x86)\\Battle.net"
      || check_path env "C:\\Program Files\\Battle.net"
  [ { id := "epic", name := "Epic Games", icon := "🎮",
      detected := epic_detected,
      games := if epic_detected then get_epic_games else [],
      install_path := if epic_detected
        then some "C:\\Program Files (x86)\\Epic Games\\Launcher" else none },
    { id := "ubisoft", name := "Ubisoft Connect", icon := "🎯",
      detected := ubisoft_detected,
      games := if ubisoft_detected then get_ubisoft_games else [],
      install_path := if ubisoft_detected
        then some "C:\\Program Files (x86)\\Ubisoft\\Ubisoft Game Launcher" else none },
    { id := "ea", name := "EA App", icon := "⚡",
      detected := ea_detected,
      games := if ea_detected then get_ea_games else [],
      install_path := if ea_detected
        then some "C:\\Program Files\\Electronic Arts\\EA Desktop" else none },
    { id := "gog", name := "GOG Galaxy", icon := "🌟",
      detected := gog_detected,
      games := if gog_detected then get_gog_games else [],
      install_path := if gog_detected
        then some "C:\\Program Files (x86)\\GOG Galaxy" else none },
    { id := "battlenet", name := "Battle.net", icon := "⚔️",
      detected := battlenet_detected,
      games := if battlenet_detected then get_battlenet_games else [],
      install_path := if battlenet_detected
        then some "C:\\Program Files (x86)\\Battle.net" else none } ]

/-- Mirrors command `detect_launchers` (lib.rs lines 40-118): builds the
vector and returns `Ok` of it. -/
def detect_launchers (env : Env) : Except String (List LauncherInfo) :=
  Except.ok (detect_launchers_list env)

/-- Mirrors command `get_games_by_launcher` (lib.rs lines 120-135): match on
the launcher id, unknown ids yield the empty catalog, always `Ok`. The body
makes no OS probe; the environment parameter records that the command runs
against (and ignores) the ambient OS state. -/
def get_games_by_launcher (_env : Env) (launcher_id : String) :
    Except String (List GameInfo) :=
  Except.ok
    (match launcher_id with
     | "epic" => get_epic_games
     | "ubisoft" => get_ubisoft_games
     | "ea" => get_ea_games
     | "gog" => get_gog_games
     | "battlenet" => get_battlenet_games
     | _ => [])

/-- Mirrors `get_steam_path` (lib.rs lines 173-192): registry value first
(only when both `open_subkey` and `get_value` succeed), then the two common
paths in order, else `None`. -/
def get_steam_path (env : Env) : Option String :=
  match (if env.regKey "SOFTWARE\\WOW6432Node\\Valve\\Steam"
         then env.regValue "SOFTWARE\\WOW6432Node\\Valve\\Steam" "InstallPath"
         else none) with
  | some install_path => some install_path
  | none =>
    if env.path "C:\\Program Files (x86)\\Steam"
    then some "C:\\Program Files (x86)\\Steam"
    else if env.path "C:\\Program Files\\Steam"
    then some "C:\\Program Files\\Steam"
    else none

/-- Mirrors command `check_steam_path` (lib.rs lines 159-162). -/
def check_steam_path (env : Env) : Option String :=
  get_steam_path env

/-- The OS API surface the program could call through `winreg` and `std::path`.
Read operations are the ones the source actually performs; write operations
are listed so that read-only-ness of the detection trace is a real statement. -/
inductive OsCall where
  | openSubkey (key : String)
  | getValue (key value_name : String)
  | pathExists (p : String)
  | createSubkey (key : String)
  | setValue (key value_name data : String)
  | writePath (p : String)
deriving DecidableEq

/-- Which OS calls are pure observations. -/
def OsCall.isRead : OsCall → Bool
  | .openSubkey _ => true
  | .getValue _ _ => true
  | .pathExists _ => true
  | .createSubkey _ => false
  | .setValue _ _ _ => false
  | .writePath _ => false

/-- The OS calls issued by one `check_registry_key(k) || check_path(p1) ||
check_path(p2)` group of `detect_launchers`, honoring Rust short-circuit
evaluation of `||`. -/
def detect_probe_trace (env : Env) (key p1 p2 : String) : List OsCall :=
  OsCall.openSubkey key ::
    (if env.regKey key then []
     else OsCall.pathExists p1 ::
       (if env.path p1 then [] else [OsCall.pathExists p2]))

/-- The complete sequence of OS calls issued by one `detect_launchers` run:
the five probe groups in declaration order (the stub catalog providers make
no OS calls). -/
def detect_launchers_trace (env : Env) : List OsCall :=
  detect_probe_trace env "SOFTWARE\\WOW6432Node\\Epic Games\\EpicGamesLauncher"
      "C:\\Program Files (x86)\\Epic Games\\Launcher"
      "C:\\Program Files\\Epic Games\\Launcher"
    ++ detect_probe_trace env "SOFTWARE\\WOW6432Node\\Ubisoft\\Launcher"
      "C:\\Program Files (x86)\\Ubisoft\\Ubisoft Game Launcher"
      "C:\\Program Files\\Ubisoft\\Ubisoft Game Launcher"
    ++ detect_probe_trace env "SOFTWARE\\WOW6432Node\\Electronic Arts\\EA Desktop"
      "C:\\Program Files\\Electronic Arts\\EA Desktop"
      "C:\\Program Files (x86)\\Electronic Arts\\EA Desktop"
    ++ detect_probe_trace env "SOFTWARE\\WOW6432Node\\GOG.com\\GalaxyClient"
      "C:\\Program Files (x86)\\GOG Galaxy"
      "C:\\Program Files\\GOG Galaxy"
    ++ detect_probe_trace env "SOFTWARE\\WOW6432Node\\Blizzard Entertainment\\Battle.net"
      "C:\\Program Files (x86)\\Battle.net"
      "C:\\Program Files\\Battle.net"

/-- A concrete OS with no registry keys, no values and no paths. -/
def envAllFalse : Env :=
  { regKey := fun _ => false, regValue := fun _ _ => none, path := fun _ => false }

/-- A concrete OS where every probe answers positively and the Steam registry
value reports an install directory that disagrees with both fallback paths. -/
def envAllTrue : Env :=
  { regKey := fun _ => true,
    regValue := fun _ _ => some "D:\\CustomSteam",
    path := fun _ => true }

/-! ## Theorems -/

/-- Closed form of the import loop, for a counter value below `2 ^ 32`:
`success` adds the count of non-sentinel games and wraps modulo `2 ^ 32`,
`failed` appends the names of sentinel games in submission order. -/
theorem add_games_loop_eq (gs : List GameInfo) :
    ∀ (s : Nat) (f : List String), s < 2 ^ 32 →
      add_games_loop gs s f =
        { success :=
            (s + (gs.filter (fun g => !nameContainsError g.name)).length) % 2 ^ 32,
          failed := f ++ (gs.filter (fun g => nameContainsError g.name)).map
            (fun g => g.name) } := by
  induction gs with
  | nil =>
    intro s f hs
    simp only [add_games_loop, List.filter_nil, List.length_nil, Nat.add_zero,
      List.map_nil, List.append_nil]
    rw [Nat.mod_eq_of_lt hs]
  | cons g rest ih =>
    intro s f hs
    simp only [add_games_loop]
    cases h : nameContainsError g.name with
    | true =>
      rw [if_pos rfl, ih s (f ++ [g.name]) hs]
      simp [List.filter_cons, h]
    | false =>
      rw [if_neg Bool.false_ne_true,
        ih ((s + 1) % 2 ^ 32) f (Nat.mod_lt _ (by norm_num))]
      simp only [List.filter_cons, h, Bool.not_false, if_true, Bool.false_eq_true,
        if_false, List.length_cons, ImportResult.mk.injEq, and_true]
      rw [Nat.mod_add_mod]
      congr 1
      omega

/-- The sentinel filter drops every copy of a non-sentinel game. -/
theorem filter_replicate_of_neg {α : Type} (n : Nat) (a : α) (p : α → Bool)
    (h : p a = false) : (List.replicate n a).filter p = [] := by
  induction n with
  | zero => rfl
  | succ n ih => simp [List.replicate_succ, List.filter_cons, h, ih]

/-- The non-sentinel filter keeps every copy of a non-sentinel game. -/
theorem filter_replicate_of_pos {α : Type} (n : Nat) (a : α) (p : α → Bool)
    (h : p a = true) : (List.replicate n a).filter p = List.replicate n a := by
  induction n with
  | zero => rfl
  | succ n ih => simp [List.replicate_succ, List.filter_cons, h, ih]

/-- C1 (amended): for a submitted list of `N` games of which exactly `K`
contain `"Error"` in their name, `add_games_to_steam` returns `Ok` of the
result with `failed` equal to exactly those `K` names in submission order and
`success = (N - K) mod 2 ^ 32` — the wrapping u32 counter — which equals
`N - K` whenever `N - K < 2 ^ 32`; in particular the empty list yields
`success = 0`, `failed = []`. -/
theorem add_games_to_steam_result_wrap (games : List GameInfo) :
    add_games_to_steam games =
      Except.ok
        { success :=
            (games.length -
              (games.filter (fun g => nameContainsError g.name)).length) % 2 ^ 32,
          failed := (games.filter (fun g => nameContainsError g.name)).map
            (fun g => g.name) } ∧
    (games.length - (games.filter (fun g => nameContainsError g.name)).length
        < 2 ^ 32 →
      add_games_to_steam games =
        Except.ok
          { success :=
              games.length -
                (games.filter (fun g => nameContainsError g.name)).length,
            failed := (games.filter (fun g => nameContainsError g.name)).map
              (fun g => g.name) }) ∧
    add_games_to_steam [] = Except.ok { success := 0, failed := [] } := by
  have hpart := List.length_eq_length_filter_add (l := games)
    (fun g => nameContainsError g.name)
  have hloop := add_games_loop_eq games 0 [] (by norm_num)
  refine ⟨?_, ?_, rfl⟩
  · rw [add_games_to_steam, hloop]
    simp only [List.nil_append, Except.ok.injEq, ImportResult.mk.injEq, and_true,
      Nat.zero_add]
    congr 1
    omega
  · intro hlt
    rw [add_games_to_steam, hloop]
    simp only [List.nil_append, Except.ok.injEq, ImportResult.mk.injEq, and_true,
      Nat.zero_add]
    have hco : (games.filter (fun g => !nameContainsError g.name)).length =
        games.length -
          (games.filter (fun g => nameContainsError g.name)).length := by
      omega
    rw [hco, Nat.mod_eq_of_lt hlt]

/-- C2 (amended): the `ImportResult` returned by `add_games_to_steam`
satisfies `success + failed.length ≡ games.length (mod 2 ^ 32)`, with
equality `success + failed.length = games.length` whenever fewer than
`2 ^ 32` games are submitted (so the u32 counter cannot wrap). -/
theorem add_games_to_steam_invariant_wrap (games : List GameInfo) :
    ∃ r, add_games_to_steam games = Except.ok r ∧
      (r.success + r.failed.length) % 2 ^ 32 = games.length % 2 ^ 32 ∧
      (games.length < 2 ^ 32 →
        r.success + r.failed.length = games.length) := by
  have hpart := List.length_eq_length_filter_add (l := games)
    (fun g => nameContainsError g.name)
  have hloop := add_games_loop_eq games 0 [] (by norm_num)
  refine ⟨add_games_loop games 0 [], rfl, ?_, ?_⟩
  · rw [hloop]
    simp only [List.nil_append, List.length_map, Nat.zero_add, Nat.mod_add_mod]
    congr 1
    omega
  · intro hN
    rw [hloop]
    simp only [List.nil_append, List.length_map, Nat.zero_add]
    have hlt : (games.filter (fun g => !nameContainsError g.name)).length
        < 2 ^ 32 := by
      omega
    rw [Nat.mod_eq_of_lt hlt]
    omega

/-- C3: for every outcome of the OS probes, `detect_launchers` returns `Ok`
of exactly five entries whose ids appear in the fixed order epic, ubisoft,
ea, gog, battlenet. -/
theorem detect_launchers_order (env : Env) :
    ∃ ls, detect_launchers env = Except.ok ls ∧
      ls.map (fun l => l.id) = ["epic", "ubisoft", "ea", "gog", "battlenet"] ∧
      ls.length = 5 :=
  ⟨detect_launchers_list env, rfl, by simp [detect_launchers_list],
    by simp [detect_launchers_list]⟩

/-- Each entry shape pushed by `detect_launchers` satisfies the
detected/games/install_path invariant. -/
theorem entry_inv (i n ic : String) (d : Bool) (gs : List GameInfo) (p : String) :
    ((LauncherInfo.mk i n ic d (if d then gs else [])
        (if d then some p else none)).detected = false →
      (LauncherInfo.mk i n ic d (if d then gs else [])
        (if d then some p else none)).games = [] ∧
      (LauncherInfo.mk i n ic d (if d then gs else [])
        (if d then some p else none)).install_path = none) ∧
    ((LauncherInfo.mk i n ic d (if d then gs else [])
        (if d then some p else none)).detected = true ↔
      (LauncherInfo.mk i n ic d (if d then gs else [])
        (if d then some p else none)).install_path.isSome = true) ∧
    ((LauncherInfo.mk i n ic d (if d then gs else [])
        (if d then some p else none)).games ≠ [] →
      (LauncherInfo.mk i n ic d (if d then gs else [])
        (if d then some p else none)).detected = true) := by
  cases d <;> simp

/-- C4: every `LauncherInfo` returned by `detect_launchers` satisfies:
not detected implies empty games and absent install path; detected iff
install path present; non-empty games only when detected. -/
theorem detect_launchers_invariant (env : Env) (ls : List LauncherInfo)
    (li : LauncherInfo) (hok : detect_launchers env = Except.ok ls)
    (hmem : li ∈ ls) :
    (li.detected = false → li.games = [] ∧ li.install_path = none) ∧
    (li.detected = true ↔ li.install_path.isSome = true) ∧
    (li.games ≠ [] → li.detected = true) := by
  rw [detect_launchers] at hok
  obtain rfl : detect_launchers_list env = ls := Except.ok.inj hok
  simp only [detect_launchers_list, List.mem_cons, List.not_mem_nil,
    or_false] at hmem
  rcases hmem with rfl | rfl | rfl | rfl | rfl <;> apply entry_inv

/-- The epic entry produced by a probe-all-false OS run. -/
def epicUndetected : LauncherInfo :=
  { id := "epic", name := "Epic Games", icon := "🎮",
    detected := false, games := [], install_path := none }

/-- C4 witness: the epic entry of a probe-all-false OS run. -/
theorem detect_launchers_invariant_witness :
    ∃ ls li, detect_launchers envAllFalse = Except.ok ls ∧ li ∈ ls ∧
      ((li.detected = false → li.games = [] ∧ li.install_path = none) ∧
       (li.detected = true ↔ li.install_path.isSome = true) ∧
       (li.games ≠ [] → li.detected = true)) := by
  have hm : epicUndetected ∈ detect_launchers_list envAllFalse := by
    simp [detect_launchers_list, envAllFalse, check_registry_key, check_path,
      epicUndetected]
  exact ⟨_, _, rfl, hm,
    detect_launchers_invariant envAllFalse (detect_launchers_list envAllFalse)
      _ rfl hm⟩

/-- C5: for each launcher the detected flag is the OR of its registry probe
and its two path probes in documented order, and whenever detected the
reported install path is the single hardcoded canonical path (the first
documented filesystem fallback), regardless of which probe matched. -/
theorem detect_launchers_predicates (env : Env) :
    ∃ ls, detect_launchers env = Except.ok ls ∧
      ls.map (fun l => (l.detected, l.install_path)) =
        [ (check_registry_key env "SOFTWARE\\WOW6432Node\\Epic Games\\EpicGamesLauncher"
             || check_path env "C:\\Program Files (x86)\\Epic Games\\Launcher"
             || check_path env "C:\\Program Files\\Epic Games\\Launcher",
           if check_registry_key env "SOFTWARE\\WOW6432Node\\Epic Games\\EpicGamesLauncher"
              || check_path env "C:\\Program Files (x86)\\Epic Games\\Launcher"
              || check_path env "C:\\Program Files\\Epic Games\\Launcher"
           then some "C:\\Program Files (x86)\\Epic Games\\Launcher" else none),
          (check_registry_key env "SOFTWARE\\WOW6432Node\\Ubisoft\\Launcher"
             || check_path env "C:\\Program Files (x86)\\Ubisoft\\Ubisoft Game Launcher"
             || check_path env "C:\\Program Files\\Ubisoft\\Ubisoft Game Launcher",
           if check_registry_key env "SOFTWARE\\WOW6432Node\\Ubisoft\\Launcher"
              || check_path env "C:\\Program Files (x86)\\Ubisoft\\Ubisoft Game Launcher"
              || check_path env "C:\\Program Files\\Ubisoft\\Ubisoft Game Launcher"
           then some "C:\\Program Files (x86)\\Ubisoft\\Ubisoft Game Launcher" else none),
          (check_registry_key env "SOFTWARE\\WOW6432Node\\Electronic Arts\\EA Desktop"
             || check_path env "C:\\Program Files\\Electronic Arts\\EA Desktop"
             || check_path env "C:\\Program Files (x86)\\Electronic Arts\\EA Desktop",
           if check_registry_key env "SOFTWARE\\WOW6432Node\\Electronic Arts\\EA Desktop"
              || check_path env "C:\\Program Files\\Electronic Arts\\EA Desktop"
              || check_path env "C:\\Program Files (x86)\\Electronic Arts\\EA Desktop"
           then some "C:\\Program Files\\Electronic Arts\\EA Desktop" else none),
          (check_registry_key env "SOFTWARE\\WOW6432Node\\GOG.com\\GalaxyClient"
             || check_path env "C:\\Program Files (x86)\\GOG Galaxy"
             || check_path env "C:\\Program Files\\GOG Galaxy",
           if check_registry_key env "SOFTWARE\\WOW6432Node\\GOG.com\\GalaxyClient"
              || check_path env "C:\\Program Files (x86)\\GOG Galaxy"
              || check_path env "C:\\Program Files\\GOG Galaxy"
           then some "C:\\Program Files (x86)\\GOG Galaxy" else none),
          (check_registry_key env "SOFTWARE\\WOW6432Node\\Blizzard Entertainment\\Battle.net"
             || check_path env "C:\\Program Files (x86)\\Battle.net"
             || check_path env "C:\\Program Files\\Battle.net",
           if check_registry_key env "SOFTWARE\\WOW6432Node\\Blizzard Entertainment\\Battle.net"
              || check_path env "C:\\Program Files (x86)\\Battle.net"
              || check_path env "C:\\Program Files\\Battle.net"
           then some "C:\\Program Files (x86)\\Battle.net" else none) ] :=
  ⟨detect_launchers_list env, rfl, rfl⟩

/-- C6: for any launcher id outside the five known ids,
`get_games_by_launcher` returns `Ok []`, never an error. -/
theorem get_games_by_launcher_unknown (env : Env) (id : String)
    (h : id ∉ ["epic", "ubisoft", "ea", "gog", "battlenet"]) :
    get_games_by_launcher env id = Except.ok [] := by
  rw [get_games_by_launcher.eq_def]
  split <;> simp_all

/-- C6 witness: the literal unknown id from the spec. -/
theorem get_games_by_launcher_unknown_witness :
    get_games_by_launcher envAllFalse "unknown-id" = Except.ok [] :=
  get_games_by_launcher_unknown envAllFalse "unknown-id" (by decide)

/-- C7: `check_steam_path` returns the registry-reported value whenever both
the Steam key and its `InstallPath` value resolve (fallback paths ignored);
when the registry lookup fails it tries the two fallback paths in order; and
when nothing matches it returns `none`, not an error. -/
theorem check_steam_path_spec (env : Env) :
    (∀ p, env.regKey "SOFTWARE\\WOW6432Node\\Valve\\Steam" = true →
      env.regValue "SOFTWARE\\WOW6432Node\\Valve\\Steam" "InstallPath" = some p →
      check_steam_path env = some p) ∧
    ((env.regKey "SOFTWARE\\WOW6432Node\\Valve\\Steam" = false ∨
        env.regValue "SOFTWARE\\WOW6432Node\\Valve\\Steam" "InstallPath" = none) →
      check_steam_path env =
        if env.path "C:\\Program Files (x86)\\Steam"
        then some "C:\\Program Files (x86)\\Steam"
        else if env.path "C:\\Program Files\\Steam"
        then some "C:\\Program Files\\Steam"
        else none) ∧
    ((env.regKey "SOFTWARE\\WOW6432Node\\Valve\\Steam" = false ∨
        env.regValue "SOFTWARE\\WOW6432Node\\Valve\\Steam" "InstallPath" = none) →
      env.path "C:\\Program Files (x86)\\Steam" = false →
      env.path "C:\\Program Files\\Steam" = false →
      check_steam_path env = none) := by
  refine ⟨?_, ?_, ?_⟩
  · intro p hk hv
    simp [check_steam_path, get_steam_path, hk, hv]
  · rintro (hk | hv)
    · simp [check_steam_path, get_steam_path, hk]
    · cases hk : env.regKey "SOFTWARE\\WOW6432Node\\Valve\\Steam" <;>
        simp [check_steam_path, get_steam_path, hk, hv]
  · rintro (hk | hv) h1 h2
    · simp [check_steam_path, get_steam_path, hk, h1, h2]
    · cases hk : env.regKey "SOFTWARE\\WOW6432Node\\Valve\\Steam" <;>
        simp [check_steam_path, get_steam_path, hk, hv, h1, h2]

/-- C7 witness: a machine where the registry reports a custom directory while
both fallback paths also exist; the registry value wins. -/
theorem check_steam_path_spec_witness :
    check_steam_path envAllTrue = some "D:\\CustomSteam" :=
  (check_steam_path_spec envAllTrue).1 "D:\\CustomSteam" rfl rfl

/-- C8: for every OS state and every input, `detect_launchers` and
`get_games_by_launcher` return `Ok`; their error branch is never taken. -/
theorem commands_never_error (env : Env) :
    (∃ ls, detect_launchers env = Except.ok ls) ∧
    (∀ id, ∃ gs, get_games_by_launcher env id = Except.ok gs) :=
  ⟨⟨detect_launchers_list env, rfl⟩, fun _ => ⟨_, rfl⟩⟩

/-- Every OS call issued by one probe group is a read. -/
theorem detect_probe_trace_read (env : Env) (k p1 p2 : String) :
    ∀ c ∈ detect_probe_trace env k p1 p2, OsCall.isRead c = true := by
  intro c hc
  simp only [detect_probe_trace] at hc
  rcases List.mem_cons.mp hc with rfl | hc2
  · rfl
  · by_cases hr : env.regKey k = true
    · rw [if_pos hr] at hc2
      exact absurd hc2 (List.not_mem_nil c)
    · rw [if_neg hr] at hc2
      rcases List.mem_cons.mp hc2 with rfl | hc3
      · rfl
      · by_cases hp : env.path p1 = true
        · rw [if_pos hp] at hc3
          exact absurd hc3 (List.not_mem_nil c)
        · rw [if_neg hp] at hc3
          rw [List.mem_singleton.mp hc3]
          rfl

/-- C9: detection is deterministic in the OS observations — two runs whose
registry and path probes answer identically produce identical results — and
the run issues only read OS calls, never a write. -/
theorem detect_launchers_deterministic_readonly (env1 env2 : Env)
    (hreg : ∀ k, env1.regKey k = env2.regKey k)
    (hpath : ∀ p, env1.path p = env2.path p) :
    detect_launchers env1 = detect_launchers env2 ∧
    ∀ c ∈ detect_launchers_trace env1, OsCall.isRead c = true := by
  constructor
  · simp [detect_launchers, detect_launchers_list, check_registry_key,
      check_path, hreg, hpath]
  · intro c hc
    simp only [detect_launchers_trace, List.mem_append] at hc
    rcases hc with ((((h | h) | h) | h) | h) <;>
      exact detect_probe_trace_read env1 _ _ _ c h

/-- C9 witness: two identical probe-all-false runs. -/
theorem detect_launchers_deterministic_readonly_witness :
    detect_launchers envAllFalse = detect_launchers envAllFalse ∧
    ∀ c ∈ detect_launchers_trace envAllFalse, OsCall.isRead c = true :=
  detect_launchers_deterministic_readonly envAllFalse envAllFalse
    (fun _ => rfl) (fun _ => rfl)

/-- C10: for each known launcher id the catalog is the fixed constant list,
independent of the OS state (epic has exactly Fortnite and Grand Theft Auto V,
the other four exactly one game each); every game is tagged with the requested
launcher id; and game ids within each catalog are pairwise distinct. -/
theorem get_games_by_launcher_catalogs (env : Env) :
    get_games_by_launcher env "epic" = Except.ok get_epic_games ∧
    get_games_by_launcher env "ubisoft" = Except.ok get_ubisoft_games ∧
    get_games_by_launcher env "ea" = Except.ok get_ea_games ∧
    get_games_by_launcher env "gog" = Except.ok get_gog_games ∧
    get_games_by_launcher env "battlenet" = Except.ok get_battlenet_games ∧
    get_epic_games.map (fun g => g.name) = ["Fortnite", "Grand Theft Auto V"] ∧
    get_ubisoft_games.length = 1 ∧ get_ea_games.length = 1 ∧
    get_gog_games.length = 1 ∧ get_battlenet_games.length = 1 ∧
    (∀ g ∈ get_epic_games, g.launcher_id = "epic") ∧
    (∀ g ∈ get_ubisoft_games, g.launcher_id = "ubisoft") ∧
    (∀ g ∈ get_ea_games, g.launcher_id = "ea") ∧
    (∀ g ∈ get_gog_games, g.launcher_id = "gog") ∧
    (∀ g ∈ get_battlenet_games, g.launcher_id = "battlenet") ∧
    (get_epic_games.map (fun g => g.id)).Nodup ∧
    (get_ubisoft_games.map (fun g => g.id)).Nodup ∧
    (get_ea_games.map (fun g => g.id)).Nodup ∧
    (get_gog_games.map (fun g => g.id)).Nodup ∧
    (get_battlenet_games.map (fun g => g.id)).Nodup :=
  ⟨rfl, rfl, rfl, rfl, rfl, by decide⟩

/-- A game whose name carries the failure sentinel substring. -/
def gameWithError : GameInfo :=
  { id := "err-game", name := "GameWithError", executable := "err.exe",
    install_path := "C:\\Games\\ErrGame", launcher_id := "epic", icon := none }

/-- A concrete submission mixing ordinary games with one sentinel game. -/
def exampleImportGames : List GameInfo :=
  get_epic_games ++ [gameWithError] ++ get_battlenet_games

/-- C1 witness: four submitted games, one sentinel, gives three successes and
just the sentinel name in `failed`; the no-wrap bound holds concretely. -/
theorem add_games_to_steam_result_wrap_witness :
    add_games_to_steam exampleImportGames =
      Except.ok { success := 3, failed := ["GameWithError"] } ∧
    add_games_to_steam [] = Except.ok { success := 0, failed := [] } := by
  have h := add_games_to_steam_result_wrap exampleImportGames
  refine ⟨?_, h.2.2⟩
  rw [h.2.1 (by decide)]
  rfl

/-- C2 witness: the exact invariant at the concrete four-game submission,
whose length is below `2 ^ 32`. -/
theorem add_games_to_steam_invariant_wrap_witness :
    ∃ r, add_games_to_steam exampleImportGames = Except.ok r ∧
      r.success + r.failed.length = exampleImportGames.length := by
  obtain ⟨r, h1, _, h3⟩ := add_games_to_steam_invariant_wrap exampleImportGames
  exact ⟨r, h1, h3 (by decide)⟩

/-- A non-sentinel game, the first entry of the epic catalog. -/
def fortniteGame : GameInfo :=
  { id := "fortnite", name := "Fortnite",
    executable := "FortniteClient-Win64-Shipping.exe",
    install_path := "C:\\Program Files\\Epic Games\\Fortnite",
    launcher_id := "epic", icon := none }

/-- A submission of `2 ^ 32` copies of a non-sentinel game: one more success
than the u32 counter can represent, so it wraps to `0`. -/
def bigSubmission : List GameInfo :=
  List.replicate (2 ^ 32) fortniteGame

/-- Evaluating the import on `2 ^ 32` all-succeeding games: the u32 counter
wraps and reports `0` successes. -/
theorem add_games_big_eval :
    add_games_to_steam bigSubmission = Except.ok { success := 0, failed := [] } := by
  have hname : nameContainsError fortniteGame.name = false := by decide
  rw [add_games_to_steam, bigSubmission,
    add_games_loop_eq _ 0 [] (by norm_num),
    filter_replicate_of_neg (2 ^ 32) fortniteGame
      (fun g => nameContainsError g.name) hname,
    filter_replicate_of_pos (2 ^ 32) fortniteGame
      (fun g => !nameContainsError g.name) (by simp [hname])]
  rw [List.length_replicate]
  norm_num

/-- C1 counterexample: on `2 ^ 32` copies of a non-sentinel game (`N = 2 ^ 32`,
`K = 0`) the program reports `success = 0`, not the claimed `N - K = 2 ^ 32`. -/
theorem add_games_to_steam_result_counterexample :
    ¬ (add_games_to_steam bigSubmission =
        Except.ok
          { success := bigSubmission.length -
              (bigSubmission.filter (fun g => nameContainsError g.name)).length,
            failed := (bigSubmission.filter (fun g => nameContainsError g.name)).map
              (fun g => g.name) }) := by
  intro hcontra
  have hname : nameContainsError fortniteGame.name = false := by decide
  have hfil : bigSubmission.filter (fun g => nameContainsError g.name) = [] := by
    rw [bigSubmission]
    exact filter_replicate_of_neg (2 ^ 32) fortniteGame
      (fun g => nameContainsError g.name) hname
  rw [add_games_big_eval, hfil, List.length_nil, List.map_nil, Nat.sub_zero,
    bigSubmission, List.length_replicate] at hcontra
  have h2 : (0 : Nat) = 2 ^ 32 :=
    congrArg ImportResult.success (Except.ok.inj hcontra)
  norm_num at h2

/-- C2 counterexample: on `2 ^ 32` copies of a non-sentinel game the returned
result has `success + failed.length = 0`, not the submitted count `2 ^ 32`. -/
theorem add_games_to_steam_invariant_counterexample :
    ∃ r, add_games_to_steam bigSubmission = Except.ok r ∧
      r.success + r.failed.length ≠ bigSubmission.length := by
  refine ⟨{ success := 0, failed := [] }, add_games_big_eval, ?_⟩
  rw [bigSubmission, List.length_replicate]
  norm_num

/-- C3 witness: the fixed ordering on a probe-all-false OS. -/
theorem detect_launchers_order_witness :
    ∃ ls, detect_launchers envAllFalse = Except.ok ls ∧
      ls.map (fun l => l.id) = ["epic", "ubisoft", "ea", "gog", "battlenet"] ∧
      ls.length = 5 :=
  detect_launchers_order envAllFalse

/-- C5 witness: on a probe-all-true OS every launcher is detected and each
reports exactly its canonical hardcoded install path. -/
theorem detect_launchers_predicates_witness :
    ∃ ls, detect_launchers envAllTrue = Except.ok ls ∧
      ls.map (fun l => (l.detected, l.install_path)) =
        [ (true, some "C:\\Program Files (x86)\\Epic Games\\Launcher"),
          (true, some "C:\\Program Files (x86)\\Ubisoft\\Ubisoft Game Launcher"),
          (true, some "C:\\Program Files\\Electronic Arts\\EA Desktop"),
          (true, some "C:\\Program Files (x86)\\GOG Galaxy"),
          (true, some "C:\\Program Files (x86)\\Battle.net") ] := by
  obtain ⟨ls, h1, h2⟩ := detect_launchers_predicates envAllTrue
  refine ⟨ls, h1, ?_⟩
  rw [h2]
  rfl

/-- C8 witness: both commands return `Ok` on a probe-all-false OS, also for
an unknown launcher id. -/
theorem commands_never_error_witness :
    (∃ ls, detect_launchers envAllFalse = Except.ok ls) ∧
    (∃ gs, get_games_by_launcher envAllFalse "no-such-launcher" = Except.ok gs) :=
  ⟨(commands_never_error envAllFalse).1,
   (commands_never_error envAllFalse).2 "no-such-launcher"⟩

/-- C10 witness: the epic catalog at a concrete OS state. -/
theorem get_games_by_launcher_catalogs_witness :
    get_games_by_launcher envAllFalse "epic" = Except.ok get_epic_games ∧
    get_epic_games.map (fun g => g.name) = ["Fortnite", "Grand Theft Auto V"] :=
  ⟨(get_games_by_launcher_catalogs envAllFalse).1,
   (get_games_by_launcher_catalogs envAllFalse).2.2.2.2.2.1⟩

end NoMoreLaunchers
